import Mathlib

/-!
Verification development for the federated literature-search core of the
pharma-research-platform repository.  The Python sources embedded here are
src/api_services.py (source adapters, EnhancedAPIManager) and src/main.py
(the hybrid /search orchestrator).  Pure string manipulation from Python is
modelled character-wise; machine-level details that no claim observes
(md5 digests, Python object reprs) are replaced by deterministic stand-ins
on which only input equality is relied.
-/

/-- Embedding of Python str.lower (ASCII case folding, which is all the
    source ever feeds it). -/
def pyLower (s : String) : String :=
  String.mk (s.data.map Char.toLower)

/-- Embedding of Python str.strip (remove leading and trailing whitespace). -/
def pyStrip (s : String) : String :=
  String.mk (((s.data.dropWhile Char.isWhitespace).reverse.dropWhile Char.isWhitespace).reverse)

/-- Contiguous-segment test on character lists. -/
def segIn (needle : List Char) : List Char → Bool
  | [] => needle.isEmpty
  | c :: rest => needle.isPrefixOf (c :: rest) || segIn needle rest

/-- Embedding of the Python substring test needle in haystack. -/
def strContains (hay needle : String) : Bool :=
  segIn needle.data hay.data

/-- Python truthiness of an optional string (None and the empty string are falsy). -/
def truthyOptStr : Option String → Bool
  | none => false
  | some s => s ≠ ""

/-- Python truthiness of an optional string list (None and [] are falsy). -/
def truthyOptList : Option (List String) → Bool
  | none => false
  | some l => l ≠ []

/-- Decimal digit run to a number (None when empty or a non-digit occurs). -/
def digitsToNat? (l : List Char) : Option Nat :=
  if l ≠ [] ∧ l.all Char.isDigit
  then some (l.foldl (fun n c => n * 10 + (c.toNat - 48)) 0)
  else none

/-- Embedding of Python int(s) restricted to the shapes the scorer can meet:
    optional surrounding whitespace, an optional sign, then decimal digits. -/
def pyInt? (s : String) : Option Int :=
  match (pyStrip s).data with
  | [] => none
  | c :: rest =>
    if c = '-' then (digitsToNat? rest).map (fun n => -(n : Int))
    else if c = '+' then (digitsToNat? rest).map (fun n => (n : Int))
    else (digitsToNat? (c :: rest)).map (fun n => (n : Int))

/-- models.ArticleCreate — the canonical record every adapter produces. -/
structure ArticleCreate where
  doi : Option String := none
  title : String
  abstract : Option String := none
  authors : Option (List String) := none
  publication_date : Option String := none
  journal : Option String := none
  url : Option String := none
deriving DecidableEq, Repr

/-- Stand-in for hashlib.md5(. . .).hexdigest()[:12]: a deterministic digest of
    the input string.  Every proof below relies only on equal inputs giving
    equal digests, never on any other property of md5. -/
def md5_digest12 (s : String) : Nat :=
  s.data.foldl (fun h c => (h * 131 + c.toNat) % (2 ^ 64)) 5381

/-- The title normalisation inside EnhancedAPIManager._create_identifier:
    re.sub removes every character outside \w and \s, after lowercasing,
    then the result is stripped. -/
def normalize_title (t : String) : String :=
  pyStrip (String.mk ((pyLower t).data.filter
    (fun c => c.isAlphanum || c == '_' || c.isWhitespace)))

/-- Stand-in for Python hash(str(article)) used by the fallback key
    (unreachable for records with a DOI or a non-empty title). -/
def article_digest (a : ArticleCreate) : Nat :=
  md5_digest12 (a.title ++ "|" ++ (a.doi.getD "") ++ "|" ++ (a.abstract.getD ""))

/-- EnhancedAPIManager._create_identifier (api_services.py lines 1111-1121):
    DOI branch lowercases but does NOT strip; title branch hashes the
    normalised title; otherwise a structural fallback key. -/
def create_identifier (a : ArticleCreate) : String :=
  match a.doi with
  | some d =>
    if d ≠ "" then "doi:" ++ pyLower d
    else if a.title ≠ "" then "title:" ++ toString (md5_digest12 (normalize_title a.title))
    else "fallback:" ++ toString (article_digest a)
  | none =>
    if a.title ≠ "" then "title:" ++ toString (md5_digest12 (normalize_title a.title))
    else "fallback:" ++ toString (article_digest a)

/-- The identity key exactly as the spec words it in section 4.4:
    a present DOI is trimmed and lowercased; otherwise the normalised-title
    digest.  Kept separate from create_identifier so the two can be compared. -/
def identity_key_spec (a : ArticleCreate) : String :=
  match a.doi with
  | some d =>
    if d ≠ "" then "doi:" ++ pyLower (pyStrip d)
    else if a.title ≠ "" then "title:" ++ toString (md5_digest12 (normalize_title a.title))
    else "fallback:" ++ toString (article_digest a)
  | none =>
    if a.title ≠ "" then "title:" ++ toString (md5_digest12 (normalize_title a.title))
    else "fallback:" ++ toString (article_digest a)

/-- Abstract-length component of EnhancedAPIManager._calculate_quality_score. -/
def abstract_points : Option String → Int
  | none => 0
  | some s =>
    if s = "" then 0
    else if 500 ≤ (pyStrip s).length then 50
    else if 200 ≤ (pyStrip s).length then 30
    else if 100 ≤ (pyStrip s).length then 15
    else 5

/-- DOI component of the quality score. -/
def doi_points (d : Option String) : Int :=
  if truthyOptStr d then 10 else 0

/-- Author component of the quality score. -/
def author_points (l : Option (List String)) : Int :=
  if truthyOptList l then 5 else 0

/-- Journal component of the quality score. -/
def journal_points (j : Option String) : Int :=
  if truthyOptStr j then 5 else 0

/-- Publication-year component of the quality score: int() of the first four
    characters, +10 from 2020 on, +5 from 2015 on, otherwise (or when
    parsing fails) nothing.  The thresholds in the source are the fixed
    literals 2020 and 2015. -/
def year_points : Option String → Int
  | none => 0
  | some s =>
    if s = "" then 0
    else
      match pyInt? (String.mk (s.data.take 4)) with
      | none => 0
      | some y => if 2020 ≤ y then 10 else if 2015 ≤ y then 5 else 0

/-- EnhancedAPIManager._calculate_quality_score (api_services.py 1123-1157),
    written as the sum of its independent per-field contributions. -/
def calculate_quality_score (a : ArticleCreate) : Int :=
  abstract_points a.abstract + doi_points a.doi + author_points a.authors
    + journal_points a.journal + year_points a.publication_date

/-- The recency bonus as the spec words it in section 4.6: thresholds relative
    to the current year.  Kept separate for comparison with year_points. -/
def recency_bonus_spec (currentYear y : Int) : Int :=
  if currentYear - 5 ≤ y then 10 else if currentYear - 10 ≤ y then 5 else 0

/-- Predicate of EnhancedAPIManager._final_quality_filter: keep a record only
    when its abstract is truthy with stripped length at least 50 and its title
    is truthy with stripped length at least 10. -/
def passes_final_filter (a : ArticleCreate) : Bool :=
  (truthyOptStr a.abstract && 50 ≤ (pyStrip (a.abstract.getD "")).length)
    && (a.title ≠ "" && 10 ≤ (pyStrip a.title).length)

/-- EnhancedAPIManager._final_quality_filter (api_services.py 1159-1172). -/
def final_quality_filter (l : List ArticleCreate) : List ArticleCreate :=
  l.filter passes_final_filter

/-- Keyword lexicon for the medical category (api_services.py line 1030). -/
def medical_terms : List String :=
  ["cancer", "drug", "treatment", "therapy", "clinical", "patient", "disease",
   "medical", "pharmaceutical", "medicine"]

/-- Keyword lexicon for the clinical category (line 1031). -/
def clinical_terms : List String :=
  ["trial", "study", "phase", "efficacy", "safety", "randomized", "placebo"]

/-- Keyword lexicon for the technology category (line 1032).  Note the entry
    "AI" keeps its source capitalisation. -/
def tech_terms : List String :=
  ["AI", "machine learning", "algorithm", "computational", "artificial intelligence"]

/-- Category list computed from the lowercased query; factored out so that the
    dependence of _categorize_query on query_lower alone is visible. -/
def categorize_from_lower (ql : String) : List String :=
  let cats :=
    (if medical_terms.any (fun t => strContains ql t) then ["medical"] else [])
      ++ (if clinical_terms.any (fun t => strContains ql t) then ["clinical"] else [])
      ++ (if tech_terms.any (fun t => strContains ql t) then ["technology"] else [])
  if cats = [] then ["general"] else cats

/-- EnhancedAPIManager._categorize_query (api_services.py 1025-1041). -/
def categorize_query (q : String) : List String :=
  categorize_from_lower (pyLower q)

/-- Static per-source configuration entry of EnhancedAPIManager.apis. -/
structure ApiConfig where
  name : String
  enabled : Bool
  priority : Int
  good_for : List String
deriving DecidableEq, Repr

/-- The five configured sources of EnhancedAPIManager.__init__ (lines 990-1021). -/
def apis_config : List ApiConfig :=
  [{ name := "pubmed", enabled := true, priority := 1,
     good_for := ["medical", "pharmaceutical", "clinical", "biomedical"] },
   { name := "europe_pmc", enabled := true, priority := 2,
     good_for := ["medical", "life sciences", "biomedical"] },
   { name := "semantic_scholar", enabled := true, priority := 3,
     good_for := ["general", "computer science", "AI", "technology"] },
   { name := "clinical_trials", enabled := true, priority := 4,
     good_for := ["clinical", "trials", "drug", "treatment", "therapy"] },
   { name := "arxiv", enabled := true, priority := 5,
     good_for := ["research", "preprint", "computational", "AI"] }]

/-- The semantic_scholar entry, used as a concrete source below. -/
def semantic_scholar_cfg : ApiConfig :=
  { name := "semantic_scholar", enabled := true, priority := 3,
    good_for := ["general", "computer science", "AI", "technology"] }

/-- The relevance score of EnhancedAPIManager.search_all (lines 1054-1063):
    inside the loop over query categories the source adds 10 for a category
    match and 1 whenever "general" is among good_for; afterwards 10 minus the
    priority is added. -/
def relevance_score (query_categories : List String) (c : ApiConfig) : Int :=
  query_categories.foldl
    (fun acc cat =>
      acc + (if c.good_for.contains cat then 10 else 0)
        + (if c.good_for.contains "general" then 1 else 0)) 0
    + (10 - c.priority)

/-- The relevance formula as the spec words it in section 4.4: the "general"
    bonus of 1 is added exactly once.  Kept separate for comparison. -/
def relevance_score_spec (query_categories : List String) (c : ApiConfig) : Int :=
  query_categories.foldl
    (fun acc cat => acc + (if c.good_for.contains cat then 10 else 0)) 0
    + (if c.good_for.contains "general" then 1 else 0)
    + (10 - c.priority)

/-- Insertion step of a stable descending-by-key sort: the new element passes
    every element with a strictly larger key and stops in front of the first
    element whose key is less than or equal to its own. -/
def insertDescBy {α : Type} (key : α → Int) (a : α) : List α → List α
  | [] => [a]
  | b :: rest => if key a < key b then b :: insertDescBy key a rest else a :: b :: rest

/-- Stable sort, descending by an integer key: the embedding of Python
    list.sort(key=k, reverse=True).  A stable descending order is unique, so
    this insertion sort computes exactly what the source's sort call does. -/
def sortDescBy {α : Type} (key : α → Int) : List α → List α
  | [] => []
  | a :: rest => insertDescBy key a (sortDescBy key rest)

/-- The enabled sources paired with their scores, sorted descending by score
    (the relevant_apis.sort(key=lambda x: x[2], reverse=True) call). -/
def rank_apis (query_categories : List String) (cfgs : List ApiConfig) :
    List (ApiConfig × Int) :=
  sortDescBy (fun p => p.2)
    ((cfgs.filter (fun c => c.enabled)).map
      (fun c => (c, relevance_score query_categories c)))

/-- The per-batch deduplication inside search_all (lines 1086-1092): a record
    whose identifier is already in the session set is dropped, a fresh
    identifier is recorded and the record kept. -/
def dedupBatch (seen : List String) : List ArticleCreate → List ArticleCreate × List String
  | [] => ([], seen)
  | a :: rest =>
    if create_identifier a ∈ seen then dedupBatch seen rest
    else
      (a :: (dedupBatch (create_identifier a :: seen) rest).1,
        (dedupBatch (create_identifier a :: seen) rest).2)

/-- The source loop of search_all (lines 1075-1102): sources are visited in
    rank order, each batch is deduplicated against the shared session set, and
    the loop stops once the collected count reaches limit * 1.5 (stated
    integrally as collected * 2 >= limit * 3). -/
def collect_sources (limit : Nat) (resultsOf : String → List ArticleCreate) :
    List (ApiConfig × Int) → List String → List ArticleCreate → List ArticleCreate
  | [], _, acc => acc
  | (cfg, _) :: rest, seen, acc =>
    if limit * 3 ≤ (acc ++ (dedupBatch seen (resultsOf cfg.name)).1).length * 2 then
      acc ++ (dedupBatch seen (resultsOf cfg.name)).1
    else
      collect_sources limit resultsOf rest (dedupBatch seen (resultsOf cfg.name)).2
        (acc ++ (dedupBatch seen (resultsOf cfg.name)).1)

/-- EnhancedAPIManager.search_all (api_services.py 1043-1109).  resultsOf maps
    a source name to the list its client.search returned for this call; the
    per-source quota only shapes the upstream request, so it is absorbed into
    resultsOf.  After collection: final quality filter, stable sort descending
    by quality score, truncation to the limit. -/
def search_all (cfgs : List ApiConfig) (resultsOf : String → List ArticleCreate)
    (query : String) (limit : Nat) : List ArticleCreate :=
  let ranked := rank_apis (categorize_query query) cfgs
  let collected := collect_sources limit resultsOf ranked [] []
  (sortDescBy calculate_quality_score (final_quality_filter collected)).take limit

/-- Origin of a record in the hybrid /search response: found by the phase-1
    database lookup, or contributed by the phase-2 loop over upstream APIs. -/
inductive Provenance where
  | db
  | fetched
deriving DecidableEq, Repr

/-- doi.lower().strip(), the DOI normalisation of main.py's dedup sets. -/
def doi_dedup_key (d : String) : String := pyStrip (pyLower d)

/-- title.lower().strip(), the title normalisation of main.py's dedup sets. -/
def title_dedup_key (t : String) : String := pyStrip (pyLower t)

/-- title.strip().lower() and SQL LOWER(TRIM(title)), the normalisation used
    for the existence lookup against stored rows. -/
def title_db_key (t : String) : String := pyLower (pyStrip t)

/-- Mutable context of the /search handler while it processes external
    articles.  dbRows models the articles table consulted by the existence
    lookups (new rows become visible immediately after db.flush). -/
structure SState where
  collected : List (ArticleCreate × Provenance)
  dois : List String
  titles : List String
  filteredCount : Nat
  processedCount : Nat
  dbRows : List ArticleCreate
  addedCount : Nat
  apiCalls : Nat
deriving Repr

/-- db.query(Article).filter(Article.doi == doi).first(): exact string match. -/
def db_find_by_doi (rows : List ArticleCreate) (d : String) : Option ArticleCreate :=
  rows.find? (fun r => r.doi == some d)

/-- The LOWER(TRIM(title)) = :title lookup against stored rows. -/
def db_find_by_title (rows : List ArticleCreate) (tkey : String) : Option ArticleCreate :=
  rows.find? (fun r => title_db_key r.title == tkey)

/-- The require_abstract test of main.py (an untruthy abstract or one whose
    stripped length is under 100 characters is filtered out). -/
def substantial_abstract (a : ArticleCreate) : Bool :=
  truthyOptStr a.abstract && 100 ≤ (pyStrip (a.abstract.getD "")).length

/-- Record a processed article's dedup keys (main.py updates both sets with
    the truthy DOI and title of whichever article object it appended). -/
def add_keys (st : SState) (a : ArticleCreate) : SState :=
  let st1 :=
    match a.doi with
    | some d => if d ≠ "" then { st with dois := st.dois ++ [doi_dedup_key d] } else st
    | none => st
  if a.title ≠ "" then { st1 with titles := st1.titles ++ [title_dedup_key a.title] } else st1

/-- The duplicate test of main.py lines 263-274: a truthy DOI already seen, or
    otherwise a truthy title already seen. -/
def is_dup (st : SState) (a : ArticleCreate) : Bool :=
  (match a.doi with
   | some d => if d ≠ "" then st.dois.contains (doi_dedup_key d) else false
   | none => false)
  || (a.title ≠ "" && st.titles.contains (title_dedup_key a.title))

/-- The DOI half of the existence lookup (only a truthy DOI is queried). -/
def doi_lookup (st : SState) (a : ArticleCreate) : Option ArticleCreate :=
  match a.doi with
  | some d => if d ≠ "" then db_find_by_doi st.dbRows d else none
  | none => none

/-- The existence lookup of main.py lines 280-289: by exact DOI first, then,
    when nothing was found, by normalised title. -/
def lookup_existing (st : SState) (a : ArticleCreate) : Option ArticleCreate :=
  match doi_lookup st a with
  | some e => some e
  | none => if a.title ≠ "" then db_find_by_title st.dbRows (title_db_key a.title) else none

/-- Handling of one external candidate (main.py lines 257-334): abstract
    filter, duplicate test, existence lookup against stored rows, then append
    either the stored row or a freshly inserted one.  The
    date-representation change of convert_string_to_date only affects the
    stored column type and is not observable through any claim, so the new
    row carries the fields of the candidate unchanged. -/
def process_one (reqAbs : Bool) (a : ArticleCreate) (st : SState) : SState :=
  if reqAbs && !(substantial_abstract a) then
    { st with filteredCount := st.filteredCount + 1 }
  else if is_dup st a then st
  else
    match lookup_existing st a with
    | some e =>
      if reqAbs && !(substantial_abstract e) then
        { st with filteredCount := st.filteredCount + 1 }
      else
        add_keys { st with collected := st.collected ++ [(e, Provenance.fetched)] } e
    | none =>
      add_keys
        { st with
          collected := st.collected ++ [(a, Provenance.fetched)],
          dbRows := st.dbRows ++ [a],
          addedCount := st.addedCount + 1 } a

/-- The inner for-loop over one batch of external articles: the processed
    counter is bumped first, and the loop breaks (leaving the rest of the
    batch untouched) as soon as the target count is reached. -/
def process_batch (target : Nat) (reqAbs : Bool) : List ArticleCreate → SState → SState
  | [], st => st
  | a :: rest, st =>
    let st1 := { st with processedCount := st.processedCount + 1 }
    if target ≤ st1.collected.length then st1
    else process_batch target reqAbs rest (process_one reqAbs a st1)

/-- max_fetch_attempts of main.py line 213. -/
def max_fetch_attempts : Nat := 2

/-- fetch_count of one attempt (main.py lines 230-233): the still-needed count
    scaled by 3 when the abstract filter is active and by 1.5 otherwise
    (int() truncates, hence the floor division), capped at 50. -/
def fetch_count (target : Nat) (reqAbs : Bool) (st : SState) : Nat :=
  min (if reqAbs then 3 * (target - st.collected.length)
       else 3 * (target - st.collected.length) / 2) 50

/-- The while-loop of main.py lines 227-339.  extFn models
    enhanced_api_manager.search_all applied to the computed fetch count and
    offset (= articles processed so far).  The loop runs while the target is
    unmet and attempts remain; it stops after an attempt that returned no
    articles, or one that returned fewer than a third of its fetch count.
    attempt counts completed attempts; the fuel argument only bounds the
    recursion and never runs out when it starts above max_fetch_attempts. -/
def fetchLoop (target : Nat) (reqAbs : Bool) (extFn : Nat → Nat → List ArticleCreate) :
    Nat → Nat → SState → SState
  | 0, _, st => st
  | fuel + 1, attempt, st =>
    if st.collected.length < target ∧ attempt < max_fetch_attempts then
      if (extFn (fetch_count target reqAbs st) st.processedCount).isEmpty then
        { st with apiCalls := st.apiCalls + 1 }
      else if (extFn (fetch_count target reqAbs st) st.processedCount).length
          < fetch_count target reqAbs st / 3 then
        process_batch target reqAbs (extFn (fetch_count target reqAbs st) st.processedCount)
          { st with apiCalls := st.apiCalls + 1 }
      else
        fetchLoop target reqAbs extFn fuel (attempt + 1)
          (process_batch target reqAbs (extFn (fetch_count target reqAbs st) st.processedCount)
            { st with apiCalls := st.apiCalls + 1 })
    else st

/-- What the /search handler returns: the truncated record list plus the
    metadata counters of main.py lines 353-396. -/
structure SearchOutcome where
  finalArts : List (ArticleCreate × Provenance)
  requestedCount : Nat
  deliveredCount : Nat
  dbResultCount : Nat
  apiResultCount : Nat
  filteredCount : Nat
  apiCalls : Nat
  searchComplete : Bool
deriving Repr

/-- The /search handler search_articles (main.py 171-400).  dbFound is what
    search_database_articles returned (a store-collaborator call), dbRows the
    table contents used by the existence lookups, extFn the aggregated
    external search as in fetchLoop. -/
def search_articles (target : Nat) (reqAbs searchDb : Bool)
    (dbFound : List ArticleCreate) (dbRows : List ArticleCreate)
    (extFn : Nat → Nat → List ArticleCreate) : SearchOutcome :=
  let phase1 : List (ArticleCreate × Provenance) :=
    if searchDb then dbFound.map (fun a => (a, Provenance.db)) else []
  let st0 : SState :=
    { collected := phase1,
      dois := phase1.filterMap (fun p =>
        match p.1.doi with
        | some d => if d ≠ "" then some (doi_dedup_key d) else none
        | none => none),
      titles := phase1.filterMap (fun p =>
        if p.1.title ≠ "" then some (title_dedup_key p.1.title) else none),
      filteredCount := 0, processedCount := 0, dbRows := dbRows,
      addedCount := 0, apiCalls := 0 }
  let stF :=
    if phase1.length < target
    then fetchLoop target reqAbs extFn (max_fetch_attempts + 1) 0 st0
    else st0
  let finalArts := stF.collected.take target
  { finalArts := finalArts,
    requestedCount := target,
    deliveredCount := finalArts.length,
    dbResultCount := (finalArts.filter (fun p => p.2 == Provenance.db)).length,
    apiResultCount := (finalArts.filter (fun p => p.2 == Provenance.fetched)).length,
    filteredCount := stF.filteredCount,
    apiCalls := stF.apiCalls,
    searchComplete := (target ≤ finalArts.length) || (2 ≤ stF.apiCalls) }

/-- Abstract-length bucket of the quality scorer: 0 for an untruthy abstract,
    then 1/2/3/4 as the stripped length crosses 100, 200 and 500. -/
def abstract_bucket : Option String → Nat
  | none => 0
  | some s =>
    if s = "" then 0
    else if 500 ≤ (pyStrip s).length then 4
    else if 200 ≤ (pyStrip s).length then 3
    else if 100 ≤ (pyStrip s).length then 2
    else 1

/-- Points awarded for each abstract bucket. -/
def bucket_points : Nat → Int
  | 0 => 0
  | 1 => 5
  | 2 => 15
  | 3 => 30
  | _ => 50

/-- A minimal JSON value type for the payloads the REST adapters parse. -/
inductive Json where
  | null
  | str (s : String)
  | num (n : Int)
  | arr (l : List Json)
  | obj (l : List (String × Json))

/-- Python dict.get on the field list of a JSON object. -/
def jlookup (fields : List (String × Json)) (k : String) : Option Json :=
  (fields.find? (fun p => p.1 == k)).map (fun p => p.2)

/-- Python truthiness of a JSON value. -/
def jtruthy : Json → Bool
  | Json.null => false
  | Json.str s => s ≠ ""
  | Json.num n => n ≠ 0
  | Json.arr l => !l.isEmpty
  | Json.obj l => !l.isEmpty

/-- Coercion of an optional JSON value into the Optional[str] pydantic fields:
    absent and null become None, a string passes, anything else is a
    validation error (None result here means the whole record is skipped). -/
def jstrOrNull? : Option Json → Option (Option String)
  | none => some none
  | some Json.null => some none
  | some (Json.str s) => some (some s)
  | some _ => none

/-- Rendering used where Python str() is applied to a scalar JSON value;
    containers get an unobservable stand-in text. -/
def jatom : Json → String
  | Json.null => "None"
  | Json.str s => s
  | Json.num n => toString n
  | Json.arr _ => "<list>"
  | Json.obj _ => "<dict>"

/-- api_services.ensure_string_date applied to a JSON field value: None stays
    None, a string is stripped (empty becomes None), an int is rendered, and
    any other value falls through to the generic str() branch. -/
def ensure_string_date_json : Option Json → Option String
  | none => none
  | some Json.null => none
  | some (Json.str s) => if pyStrip s = "" then none else some (pyStrip s)
  | some v => some (jatom v)

/-- ensure_string_date applied to a plain string. -/
def ensure_string_date_str (s : String) : Option String :=
  if pyStrip s = "" then none else some (pyStrip s)

/-- Outcome of one outbound HTTP call: a raised transport error, or a status
    code with a payload. -/
inductive Transport (α : Type) where
  | failed (msg : String)
  | ok (status : Nat) (payload : α)

/-- One entry of the Europe PMC result list (the body of the per-record try in
    EuropePMCAPI._parse_results, lines 668-705).  A None result is a record
    that was skipped: either its abstract was missing or short, or a schema
    mismatch raised inside the per-record try. -/
def epmc_parse_record (j : Json) : Option ArticleCreate :=
  match j with
  | Json.obj fields => do
    let title ←
      match jlookup fields "title" with
      | none => some "No title"
      | some (Json.str s) => some s
      | some _ => none
    let abs0 ←
      match jlookup fields "abstractText" with
      | none => some ""
      | some (Json.str s) => some s
      | some Json.null => some ""
      | some _ => none
    if abs0 = "" ∨ (pyStrip abs0).length < 50 then none
    else do
      let authorStr ←
        match jlookup fields "authorString" with
        | none => some ""
        | some Json.null => some ""
        | some (Json.str s) => some s
        | some _ => none
      let authors := if authorStr = "" then [] else (authorStr.splitOn ",").map pyStrip
      let doi ← jstrOrNull? (jlookup fields "doi")
      let jv :=
        match jlookup fields "journalTitle" with
        | none => jlookup fields "journalName"
        | some v => if jtruthy v then some v else jlookup fields "journalName"
      let journal ← jstrOrNull? jv
      let pubYear := ensure_string_date_json (jlookup fields "pubYear")
      let pmid := jlookup fields "pmid"
      let url :=
        match pmid with
        | some v =>
          if jtruthy v then some ("https://pubmed.ncbi.nlm.nih.gov/" ++ jatom v ++ "/")
          else
            match doi with
            | some d => if d ≠ "" then some ("https://doi.org/" ++ d) else none
            | none => none
        | none =>
          match doi with
          | some d => if d ≠ "" then some ("https://doi.org/" ++ d) else none
          | none => none
      some { doi := doi, title := title, abstract := some abs0, authors := some authors,
             publication_date := pubYear, journal := journal, url := url }
  | _ => none

/-- EuropePMCAPI._parse_results (lines 661-707): data.resultList.result with
    dict defaults; a structural mismatch (non-object data or resultList,
    non-list result) raises out of the helper and is caught by the caller,
    modelled as a None result. -/
def epmc_parse_results (data : Json) : Option (List ArticleCreate) :=
  match data with
  | Json.obj kvs =>
    match (jlookup kvs "resultList").getD (Json.obj []) with
    | Json.obj kvs2 =>
      match (jlookup kvs2 "result").getD (Json.arr []) with
      | Json.arr items => some (items.filterMap epmc_parse_record)
      | _ => none
    | _ => none
  | _ => none

/-- EuropePMCAPI.search (api_services.py 632-659) over the transport outcome:
    the payload is the parsed response.json() body, None when the body was
    not valid JSON.  Every failure path of the source collapses to []. -/
def europe_pmc_search (resp : Transport (Option Json)) : List ArticleCreate :=
  match resp with
  | Transport.failed _ => []
  | Transport.ok status pj =>
    if status ≠ 200 then []
    else
      match pj with
      | none => []
      | some data => (epmc_parse_results data).getD []

/-- An XML element as ElementTree exposes it: tag, optional text, children. -/
inductive Xml where
  | elem (tag : String) (text : Option String) (children : List Xml)

/-- Tag of an element. -/
def Xml.tagOf : Xml → String
  | Xml.elem t _ _ => t

/-- Text of an element (None when the element holds no text). -/
def Xml.textOf : Xml → Option String
  | Xml.elem _ tx _ => tx

/-- element.find(tag): first child carrying the tag. -/
def xfind (x : Xml) (t : String) : Option Xml :=
  match x with
  | Xml.elem _ _ cs => cs.find? (fun c => c.tagOf == t)

/-- element.findall(tag): every child carrying the tag. -/
def xfindAll (x : Xml) (t : String) : List Xml :=
  match x with
  | Xml.elem _ _ cs => cs.filter (fun c => c.tagOf == t)

/-- One Atom entry (the per-entry try of ArxivAPI._parse_arxiv_xml, lines
    933-973).  None is a skipped entry: summary missing or under 100 stripped
    characters, or a None text where the source calls .strip() on it or feeds
    it to the authors list. -/
def arxiv_parse_entry (e : Xml) : Option ArticleCreate := do
  let title ←
    match xfind e "title" with
    | none => some "No title"
    | some el => (el.textOf).map pyStrip
  let summary0 ←
    match xfind e "summary" with
    | none => some none
    | some el =>
      match el.textOf with
      | none => none
      | some s => some (some (pyStrip s))
  match summary0 with
  | none => none
  | some s =>
    if s = "" ∨ (pyStrip s).length < 100 then none
    else do
      let authors ←
        (xfindAll e "author").foldlM
          (fun acc a =>
            match xfind a "name" with
            | none => some acc
            | some n =>
              match n.textOf with
              | none => none
              | some nm => some (acc ++ [nm])) ([] : List String)
      let url := (xfind e "id").bind Xml.textOf
      let pubDate :=
        match xfind e "published" with
        | none => ""
        | some p =>
          match p.textOf with
          | none => ""
          | some s2 => if s2 = "" then "" else String.mk (s2.data.take 4)
      some { doi := none, title := title, abstract := some s, authors := some authors,
             publication_date := ensure_string_date_str pubDate, journal := some "arXiv",
             url := url }

/-- ArxivAPI._parse_arxiv_xml (lines 925-978) over the ElementTree result:
    None models a payload ET.fromstring rejected (the outer try yields []). -/
def arxiv_parse (px : Option Xml) : List ArticleCreate :=
  match px with
  | none => []
  | some root => (xfindAll root "entry").filterMap arxiv_parse_entry

/-- ArxivAPI.search (api_services.py 899-923) over the transport outcome. -/
def arxiv_search (resp : Transport (Option Xml)) : List ArticleCreate :=
  match resp with
  | Transport.failed _ => []
  | Transport.ok status px => if status ≠ 200 then [] else arxiv_parse px

/-- A well-formed abstract text, comfortably over every length threshold the
    filters use (stripped length at least 100). -/
def absTxt : String :=
  "Preclinical and clinical findings on the treatment response are summarized here in considerable detail for review."

/-- External record of fetch attempt 1: no DOI, and a title whose only
    difference from artB is a punctuation character that the main-loop dedup
    keeps but the identity-key normalisation removes. -/
def artA : ArticleCreate :=
  { doi := none, title := "Cancer: Treatments Overview", abstract := some absTxt,
    authors := some ["A. Author"], publication_date := some "2021",
    journal := some "Journal of Findings", url := none }

/-- External record of fetch attempt 2: same title as artA minus the colon. -/
def artB : ArticleCreate :=
  { doi := none, title := "Cancer Treatments Overview", abstract := some absTxt,
    authors := some ["A. Author"], publication_date := some "2021",
    journal := some "Journal of Findings", url := none }

/-- Upstream results during attempt 1 of the C1 scenario: only PubMed answers. -/
def c1_results1 (n : String) : List ArticleCreate :=
  if n = "pubmed" then [artA] else []

/-- Upstream results during attempt 2 of the C1 scenario. -/
def c1_results2 (n : String) : List ArticleCreate :=
  if n = "pubmed" then [artB] else []

/-- The aggregated external search of the C1 scenario: attempt 1 runs at
    offset 0, attempt 2 at the offset advanced past the processed article. -/
def c1_extFn (fc off : Nat) : List ArticleCreate :=
  if off = 0 then search_all apis_config c1_results1 "cancer treatment" fc
  else search_all apis_config c1_results2 "cancer treatment" fc

/-- A single well-formed record used by the one-short-attempt scenario. -/
def artGood : ArticleCreate :=
  { doi := some "10.1000/xyz123", title := "A Sufficiently Long Title", abstract := some absTxt,
    authors := some ["B. Author"], publication_date := some "2024",
    journal := some "Journal of Findings", url := none }

/-- Upstream results of the C5 scenario: every call yields one article. -/
def c5_results (n : String) : List ArticleCreate :=
  if n = "pubmed" then [artGood] else []

/-- The aggregated external search of the C5 scenario. -/
def c5_extFn (fc _off : Nat) : List ArticleCreate :=
  search_all apis_config c5_results "cancer treatment" fc

/-- Record whose DOI carries leading whitespace and an uppercase letter. -/
def artDoiWs : ArticleCreate :=
  { doi := some " 10.1/X", title := "A Sufficiently Long Title", abstract := some absTxt,
    authors := none, publication_date := none, journal := none, url := none }

/-- Record with the same DOI after trimming and lowercasing. -/
def artDoiPlain : ArticleCreate :=
  { doi := some "10.1/x", title := "A Sufficiently Long Title", abstract := some absTxt,
    authors := none, publication_date := none, journal := none, url := none }

/-- Record whose DOI differs from artDoiPlain only in letter case. -/
def artDoiUpper : ArticleCreate :=
  { doi := some "10.1/X", title := "A Sufficiently Long Title", abstract := some absTxt,
    authors := none, publication_date := none, journal := none, url := none }

/-- Record carrying only a publication year, to isolate the recency bonus. -/
def artYear2020 : ArticleCreate :=
  { title := "T", publication_date := some "2020" }

/-- The orchestrator state at the start of phase 2 of a request with no
    database phase and an empty store. -/
def emptyState : SState :=
  { collected := [], dois := [], titles := [], filteredCount := 0,
    processedCount := 0, dbRows := [], addedCount := 0, apiCalls := 0 }

set_option maxRecDepth 40000


/-! Helper lemmas -/

theorem insertDescBy_perm {α : Type} (key : α → Int) (a : α) (l : List α) :
    List.Perm (insertDescBy key a l) (a :: l) := by
  induction l with
  | nil => exact List.Perm.refl _
  | cons b rest ih =>
    simp only [insertDescBy]
    split
    · exact (ih.cons b).trans (List.Perm.swap a b rest)
    · exact List.Perm.refl _

theorem sortDescBy_perm {α : Type} (key : α → Int) (l : List α) :
    List.Perm (sortDescBy key l) l := by
  induction l with
  | nil => exact List.Perm.refl _
  | cons a rest ih =>
    exact (insertDescBy_perm key a (sortDescBy key rest)).trans (ih.cons a)

theorem insertDescBy_sorted {α : Type} (key : α → Int) (a : α) (l : List α)
    (h : l.Pairwise (fun x y => key y ≤ key x)) :
    (insertDescBy key a l).Pairwise (fun x y => key y ≤ key x) := by
  induction l with
  | nil => simp [insertDescBy]
  | cons b rest ih =>
    obtain ⟨hb, hrest⟩ := List.pairwise_cons.mp h
    simp only [insertDescBy]
    split
    · rename_i hab
      refine List.pairwise_cons.mpr ⟨?_, ih hrest⟩
      intro c hc
      rcases List.mem_cons.mp ((insertDescBy_perm key a rest).mem_iff.mp hc) with hca | hcr
      · exact hca ▸ le_of_lt hab
      · exact hb c hcr
    · rename_i hab
      refine List.pairwise_cons.mpr ⟨?_, h⟩
      intro c hc
      rcases List.mem_cons.mp hc with hcb | hcr
      · exact hcb ▸ not_lt.mp hab
      · exact le_trans (hb c hcr) (not_lt.mp hab)

theorem sortDescBy_sorted {α : Type} (key : α → Int) (l : List α) :
    (sortDescBy key l).Pairwise (fun x y => key y ≤ key x) := by
  induction l with
  | nil => simp [sortDescBy]
  | cons a rest ih => exact insertDescBy_sorted key a (sortDescBy key rest) ih

theorem dedupBatch_spec (l : List ArticleCreate) : ∀ seen : List String,
    ((dedupBatch seen l).1.Pairwise
        fun a b => create_identifier a ≠ create_identifier b)
    ∧ (∀ a ∈ (dedupBatch seen l).1, create_identifier a ∉ seen)
    ∧ (∀ x ∈ seen, x ∈ (dedupBatch seen l).2)
    ∧ (∀ a ∈ (dedupBatch seen l).1, create_identifier a ∈ (dedupBatch seen l).2) := by
  induction l with
  | nil => intro seen; simp [dedupBatch]
  | cons a rest ih =>
    intro seen
    by_cases hk : create_identifier a ∈ seen
    · simpa only [dedupBatch, if_pos hk] using ih seen
    · obtain ⟨h1, h2, h3, h4⟩ := ih (create_identifier a :: seen)
      simp only [dedupBatch, if_neg hk]
      refine ⟨?_, ?_, ?_, ?_⟩
      · refine List.pairwise_cons.mpr ⟨?_, h1⟩
        intro b hb heq
        exact h2 b hb (heq ▸ List.mem_cons_self _ _)
      · intro b hb
        rcases List.mem_cons.mp hb with hba | hbr
        · exact hba ▸ hk
        · intro hbs
          exact h2 b hbr (List.mem_cons_of_mem _ hbs)
      · intro x hx
        exact h3 x (List.mem_cons_of_mem _ hx)
      · intro b hb
        rcases List.mem_cons.mp hb with hba | hbr
        · exact hba ▸ h3 _ (List.mem_cons_self _ _)
        · exact h4 b hbr

theorem collect_sources_pairwise (limit : Nat) (resultsOf : String → List ArticleCreate) :
    ∀ (apisL : List (ApiConfig × Int)) (seen : List String) (acc : List ArticleCreate),
      (acc.Pairwise fun a b => create_identifier a ≠ create_identifier b) →
      (∀ a ∈ acc, create_identifier a ∈ seen) →
      ((collect_sources limit resultsOf apisL seen acc).Pairwise
        fun a b => create_identifier a ≠ create_identifier b) := by
  intro apisL
  induction apisL with
  | nil => intro seen acc hpw _; simpa [collect_sources] using hpw
  | cons hd tl ih =>
    intro seen acc hpw hmem
    obtain ⟨cfg, sc⟩ := hd
    obtain ⟨d1, d2, d3, d4⟩ := dedupBatch_spec (resultsOf cfg.name) seen
    have hpw2 : ((acc ++ (dedupBatch seen (resultsOf cfg.name)).1).Pairwise
        fun a b => create_identifier a ≠ create_identifier b) := by
      refine List.pairwise_append.mpr ⟨hpw, d1, ?_⟩
      intro a ha b hb heq
      exact d2 b hb (heq ▸ hmem a ha)
    simp only [collect_sources]
    split
    · exact hpw2
    · refine ih _ _ hpw2 ?_
      intro a ha
      rcases List.mem_append.mp ha with hga | hgb
      · exact d3 _ (hmem a hga)
      · exact d4 a hgb

theorem add_keys_collected (st : SState) (a : ArticleCreate) :
    (add_keys st a).collected = st.collected := by
  unfold add_keys
  rcases hd : a.doi with _ | d <;> simp only [hd] <;> split_ifs <;> rfl

theorem add_keys_apiCalls (st : SState) (a : ArticleCreate) :
    (add_keys st a).apiCalls = st.apiCalls := by
  unfold add_keys
  rcases hd : a.doi with _ | d <;> simp only [hd] <;> split_ifs <;> rfl

theorem process_one_apiCalls (reqAbs : Bool) (a : ArticleCreate) (st : SState) :
    (process_one reqAbs a st).apiCalls = st.apiCalls := by
  unfold process_one
  split
  · rfl
  · split
    · rfl
    · split
      · split
        · rfl
        · exact add_keys_apiCalls _ _
      · exact add_keys_apiCalls _ _

theorem process_batch_apiCalls (target : Nat) (reqAbs : Bool) :
    ∀ (l : List ArticleCreate) (st : SState),
      (process_batch target reqAbs l st).apiCalls = st.apiCalls := by
  intro l
  induction l with
  | nil => intro st; rfl
  | cons a rest ih =>
    intro st
    simp only [process_batch]
    split
    · rfl
    · rw [ih, process_one_apiCalls]

theorem relevance_fold (c : ApiConfig) :
    ∀ (l : List String) (init : Int),
      l.foldl (fun acc cat =>
        acc + (if c.good_for.contains cat then 10 else 0)
          + (if c.good_for.contains "general" then 1 else 0)) init
      = init + 10 * ((l.filter (fun cat => c.good_for.contains cat)).length : Int)
        + (l.length : Int) * (if c.good_for.contains "general" then 1 else 0) := by
  intro l
  induction l with
  | nil => intro init; simp
  | cons hd tl ih =>
    intro init
    simp only [List.foldl_cons, List.filter_cons, List.length_cons]
    rw [ih]
    by_cases h1 : hd ∈ c.good_for <;> by_cases h2 : "general" ∈ c.good_for <;>
      simp [h1, h2] <;> ring

theorem abstract_points_eq_bucket (x : Option String) :
    abstract_points x = bucket_points (abstract_bucket x) := by
  cases x with
  | none => rfl
  | some s =>
    simp only [abstract_points, abstract_bucket]
    split_ifs <;> rfl

theorem abstract_bucket_le_four (x : Option String) : abstract_bucket x ≤ 4 := by
  cases x with
  | none => decide
  | some s =>
    simp only [abstract_bucket]
    split_ifs <;> decide

theorem bucket_points_mono (m n : Nat) (hm : m ≤ 4) (hn : n ≤ 4) (h : m ≤ n) :
    bucket_points m ≤ bucket_points n := by
  interval_cases m <;> interval_cases n <;> decide

/-! Claim theorems -/

/-- C2 (counterexample).  The query "clinical trial" categorizes to two
    categories; for the configured semantic_scholar source the code's
    relevance score is 9 because the +1 "general" bonus is applied inside the
    per-category loop (once per query category), while the spec formula —
    which adds the bonus exactly once — yields 8.  So the claimed score
    formula fails on this configured source. -/
theorem relevance_general_bonus_cex :
    categorize_query "clinical trial" = ["medical", "clinical"]
    ∧ semantic_scholar_cfg ∈ apis_config
    ∧ relevance_score (categorize_query "clinical trial") semantic_scholar_cfg = 9
    ∧ relevance_score_spec (categorize_query "clinical trial") semantic_scholar_cfg = 8
    ∧ (9 : Int) ≠ 8 := by decide

/-- C2 (amended).  For every query-category list and source, the router's
    score equals 10 per matched category, plus the "general" bonus of 1 once
    PER QUERY CATEGORY (not exactly once), plus 10 minus the priority; and
    the ranked source list is ordered by descending score. -/
theorem relevance_score_closed_form_and_order :
    (∀ (qc : List String) (c : ApiConfig),
      relevance_score qc c
        = 10 * ((qc.filter (fun cat => c.good_for.contains cat)).length : Int)
          + (qc.length : Int) * (if c.good_for.contains "general" then 1 else 0)
          + (10 - c.priority))
    ∧ (∀ (qc : List String) (cfgs : List ApiConfig),
      (rank_apis qc cfgs).Pairwise (fun p q => q.2 ≤ p.2)) := by
  constructor
  · intro qc c
    unfold relevance_score
    rw [relevance_fold]
    ring
  · intro qc cfgs
    exact sortDescBy_sorted (fun p : ApiConfig × Int => p.2) _

/-- C3 (counterexample).  Today the current year is 2026, so the claim's
    current-year-relative rule puts the year 2020 in the +5 band
    (2016 ≤ 2020 < 2021), but the scorer — whose thresholds are the fixed
    literals 2020 and 2015 — awards +10 for it. -/
theorem recency_tracking_cex :
    year_points (some "2020") = 10
    ∧ recency_bonus_spec 2026 2020 = 5
    ∧ calculate_quality_score artYear2020 = 10
    ∧ (10 : Int) ≠ 5 := by decide

/-- C3 (amended).  For every record whose publication-date string parses to a
    year y, the recency component is +10 when y ≥ 2020, +5 when
    2015 ≤ y < 2020, else +0 — fixed calendar thresholds that do not track
    the current year. -/
theorem year_points_fixed_thresholds (s : String) (y : Int)
    (hs : s ≠ "") (hy : pyInt? (String.mk (s.data.take 4)) = some y) :
    year_points (some s) = (if 2020 ≤ y then 10 else if 2015 ≤ y then 5 else 0) := by
  simp [year_points, hs, hy]

/-- Witness for year_points_fixed_thresholds at the year 2016. -/
theorem year_points_fixed_thresholds_witness :
    year_points (some "2016")
      = (if (2020 : Int) ≤ 2016 then 10 else if (2015 : Int) ≤ 2016 then 5 else 0) :=
  year_points_fixed_thresholds "2016" 2016 (by decide) (by decide)

/-- C4 (counterexample).  For the record whose DOI is " 10.1/X" the code's
    identifier keeps the leading whitespace ("doi: 10.1/x"), differing from
    the claimed trimmed form "doi:10.1/x"; hence two records whose DOIs
    differ only in leading whitespace get DIFFERENT code identifiers even
    though the claimed key would identify them. -/
theorem doi_identifier_trim_cex :
    create_identifier artDoiWs = "doi: 10.1/x"
    ∧ identity_key_spec artDoiWs = "doi:10.1/x"
    ∧ create_identifier artDoiWs ≠ identity_key_spec artDoiWs
    ∧ identity_key_spec artDoiWs = identity_key_spec artDoiPlain
    ∧ create_identifier artDoiWs ≠ create_identifier artDoiPlain := by decide

/-- C4 (amended).  For every record with a truthy DOI the identifier is
    "doi:" followed by the LOWERCASED BUT UNTRIMMED DOI; consequently two
    records whose DOIs agree after lowercasing share the identifier (DOIs
    differing only in case collide, whitespace-differing ones need not). -/
theorem doi_identifier_lowercase_no_trim (a b : ArticleCreate) (d e : String)
    (ha : a.doi = some d) (hd : d ≠ "") (hb : b.doi = some e) (he : e ≠ "")
    (hcase : pyLower d = pyLower e) :
    create_identifier a = "doi:" ++ pyLower d
    ∧ create_identifier a = create_identifier b := by
  constructor
  · simp [create_identifier, ha, hd]
  · simp [create_identifier, ha, hd, hb, he, hcase]

/-- Witness for doi_identifier_lowercase_no_trim on case-differing DOIs. -/
theorem doi_identifier_lowercase_no_trim_witness :
    create_identifier artDoiPlain = "doi:" ++ pyLower "10.1/x"
    ∧ create_identifier artDoiPlain = create_identifier artDoiUpper :=
  doi_identifier_lowercase_no_trim artDoiPlain artDoiUpper "10.1/x" "10.1/X"
    (by decide) (by decide) (by decide) (by decide) (by decide)

/-- C8 (confirmed).  For two records identical in every field except the
    abstract, the one whose abstract lies in a higher length bucket
    (absent < non-empty < ≥100 < ≥200 < ≥500) never scores lower. -/
theorem quality_score_abstract_bucket_monotone (a : ArticleCreate) (x y : Option String)
    (h : abstract_bucket x ≤ abstract_bucket y) :
    calculate_quality_score { a with abstract := x }
      ≤ calculate_quality_score { a with abstract := y } := by
  have hx : abstract_points x ≤ abstract_points y := by
    rw [abstract_points_eq_bucket, abstract_points_eq_bucket]
    exact bucket_points_mono _ _ (abstract_bucket_le_four x) (abstract_bucket_le_four y) h
  show abstract_points x + doi_points a.doi + author_points a.authors
      + journal_points a.journal + year_points a.publication_date
    ≤ abstract_points y + doi_points a.doi + author_points a.authors
      + journal_points a.journal + year_points a.publication_date
  linarith

/-- Witness for quality_score_abstract_bucket_monotone: no abstract versus a
    long abstract, all other fields shared. -/
theorem quality_score_abstract_bucket_monotone_witness :
    calculate_quality_score { artGood with abstract := none }
      ≤ calculate_quality_score { artGood with abstract := some absTxt } :=
  quality_score_abstract_bucket_monotone artGood none (some absTxt) (by decide)

/-- C9 (counterexample).  The keyword "AI" of the technology lexicon matches
    the query "AI" case-insensitively (both lowercase to "ai"), yet the
    categorizer returns exactly ["general"]: keywords are matched verbatim
    against the lowercased query, so an uppercase keyword never fires —
    contradicting the claim that a keyword matches regardless of the letter
    case of either side. -/
theorem categorize_uppercase_keyword_cex :
    categorize_query "AI" = ["general"]
    ∧ "AI" ∈ tech_terms
    ∧ strContains (pyLower "AI") (pyLower "AI") = true
    ∧ "technology" ∉ categorize_query "AI" := by decide

/-- C9 (amended).  The categorizer is a pure function of the LOWERCASED query
    (so it is insensitive to the query's case, though not to a keyword's),
    and it returns exactly ["general"] precisely when no keyword list matches
    the lowercased query verbatim. -/
theorem categorize_query_lowercase_matching :
    (∀ q1 q2 : String, pyLower q1 = pyLower q2 → categorize_query q1 = categorize_query q2)
    ∧ (∀ q : String, categorize_query q = ["general"] ↔
        (medical_terms.any (fun t => strContains (pyLower q) t) = false
          ∧ clinical_terms.any (fun t => strContains (pyLower q) t) = false
          ∧ tech_terms.any (fun t => strContains (pyLower q) t) = false)) := by
  constructor
  · intro q1 q2 h
    unfold categorize_query
    rw [h]
  · intro q
    unfold categorize_query categorize_from_lower
    cases h1 : medical_terms.any (fun t => strContains (pyLower q) t) <;>
      cases h2 : clinical_terms.any (fun t => strContains (pyLower q) t) <;>
        cases h3 : tech_terms.any (fun t => strContains (pyLower q) t) <;>
          simp [h1, h2, h3]

/-- Witness for categorize_query_lowercase_matching. -/
theorem categorize_query_lowercase_matching_witness :
    categorize_query "Cancer Study" = categorize_query "cancer study"
    ∧ (categorize_query "xyz" = ["general"] ↔
        (medical_terms.any (fun t => strContains (pyLower "xyz") t) = false
          ∧ clinical_terms.any (fun t => strContains (pyLower "xyz") t) = false
          ∧ tech_terms.any (fun t => strContains (pyLower "xyz") t) = false)) :=
  ⟨categorize_query_lowercase_matching.1 "Cancer Study" "cancer study" (by decide),
    categorize_query_lowercase_matching.2 "xyz"⟩

/-- C6 (confirmed).  Both embedded adapters turn every failure into an empty
    result: a raised transport error, a non-200 status, an unparseable body,
    and a structurally mismatched payload all yield []; and the ArXiv parse
    of a well-formed feed keeps exactly the per-entry survivors, so a
    malformed entry is skipped without aborting the batch. -/
theorem adapter_failures_yield_empty :
    (∀ m, europe_pmc_search (Transport.failed m) = [])
    ∧ (∀ (status : Nat) (pj : Option Json), status ≠ 200 →
        europe_pmc_search (Transport.ok status pj) = [])
    ∧ (europe_pmc_search (Transport.ok 200 none) = [])
    ∧ (∀ data : Json, epmc_parse_results data = none →
        europe_pmc_search (Transport.ok 200 (some data)) = [])
    ∧ (∀ m, arxiv_search (Transport.failed m) = [])
    ∧ (∀ (status : Nat) (px : Option Xml), status ≠ 200 →
        arxiv_search (Transport.ok status px) = [])
    ∧ (arxiv_search (Transport.ok 200 none) = [])
    ∧ (∀ root : Xml, arxiv_search (Transport.ok 200 (some root))
        = (xfindAll root "entry").filterMap arxiv_parse_entry) := by
  refine ⟨fun m => rfl, ?_, rfl, ?_, fun m => rfl, ?_, rfl, fun root => rfl⟩
  · intro status pj h
    simp [europe_pmc_search, h]
  · intro data h
    simp [europe_pmc_search, h]
  · intro status px h
    simp [arxiv_search, h]

/-- Witness for adapter_failures_yield_empty: a 404, a non-object JSON body,
    and an unparseable ArXiv body. -/
theorem adapter_failures_yield_empty_witness :
    europe_pmc_search (Transport.ok 404 (some (Json.obj []))) = []
    ∧ europe_pmc_search (Transport.ok 200 (some (Json.str "plain text"))) = []
    ∧ arxiv_search (Transport.ok 503 none) = [] :=
  ⟨adapter_failures_yield_empty.2.1 404 (some (Json.obj [])) (by decide),
    adapter_failures_yield_empty.2.2.2.1 (Json.str "plain text") rfl,
    adapter_failures_yield_empty.2.2.2.2.2.1 503 none (by decide)⟩

/-- C7 (confirmed).  The aggregated search truncates to its limit and the
    /search handler truncates to the requested target, so a result never
    holds more records than requested. -/
theorem result_length_le_limit :
    (∀ (cfgs : List ApiConfig) (resultsOf : String → List ArticleCreate)
        (query : String) (limit : Nat),
      (search_all cfgs resultsOf query limit).length ≤ limit)
    ∧ (∀ (target : Nat) (reqAbs searchDb : Bool) (dbFound dbRows : List ArticleCreate)
        (extFn : Nat → Nat → List ArticleCreate),
      (search_articles target reqAbs searchDb dbFound dbRows extFn).finalArts.length
        ≤ target) := by
  constructor
  · intro cfgs resultsOf query limit
    exact List.length_take_le _ _
  · intro target reqAbs searchDb dbFound dbRows extFn
    exact List.length_take_le _ _

/-- C10 (confirmed).  Every record returned by the aggregated search has a
    truthy abstract of stripped length at least 50 and a title of stripped
    length at least 10 — the final quality filter guarantees both bounds. -/
theorem search_all_members_pass_quality_filter
    (cfgs : List ApiConfig) (resultsOf : String → List ArticleCreate)
    (query : String) (limit : Nat) (a : ArticleCreate)
    (ha : a ∈ search_all cfgs resultsOf query limit) :
    (∃ s, a.abstract = some s ∧ s ≠ "" ∧ 50 ≤ (pyStrip s).length)
      ∧ a.title ≠ "" ∧ 10 ≤ (pyStrip a.title).length := by
  have h1 : a ∈ sortDescBy calculate_quality_score
      (final_quality_filter (collect_sources limit resultsOf
        (rank_apis (categorize_query query) cfgs) [] [])) :=
    (List.take_sublist _ _).subset ha
  have h2 : a ∈ final_quality_filter (collect_sources limit resultsOf
      (rank_apis (categorize_query query) cfgs) [] []) :=
    (sortDescBy_perm calculate_quality_score _).mem_iff.mp h1
  have h3 : passes_final_filter a = true := (List.mem_filter.mp h2).2
  simp only [passes_final_filter, Bool.and_eq_true, decide_eq_true_eq] at h3
  obtain ⟨⟨hta, hlen⟩, htt, htl⟩ := h3
  cases habs : a.abstract with
  | none => rw [habs] at hta; simp [truthyOptStr] at hta
  | some s =>
    rw [habs] at hta hlen
    simp only [truthyOptStr, ne_eq, decide_eq_true_eq] at hta
    exact ⟨⟨s, rfl, hta, by simpa using hlen⟩, htt, htl⟩

/-- Witness for search_all_members_pass_quality_filter on a concrete run. -/
theorem search_all_members_pass_quality_filter_witness :
    (∃ s, artGood.abstract = some s ∧ s ≠ "" ∧ 50 ≤ (pyStrip s).length)
      ∧ artGood.title ≠ "" ∧ 10 ≤ (pyStrip artGood.title).length :=
  search_all_members_pass_quality_filter apis_config c5_results "cancer treatment" 5
    artGood (by decide)

/-- C1 (counterexample).  A concrete completed request (target 2, no database
    phase): attempt 1 delivers the record titled "Cancer: Treatments
    Overview", attempt 2 the record titled "Cancer Treatments Overview".  The
    main loop deduplicates only on lowercased-stripped titles, which differ,
    yet both records have the SAME section-4.4 identity key (their normalised
    titles coincide once punctuation is removed), so the final result holds
    two distinct records sharing an identity key. -/
theorem request_identity_key_collision_cex :
    ((search_articles 2 false false [] [] c1_extFn).finalArts.map (fun p => p.1)
      = [artA, artB])
    ∧ identity_key_spec artA = identity_key_spec artB
    ∧ artA ≠ artB := by
  refine ⟨by decide, ?_, by decide⟩
  have h : normalize_title artA.title = normalize_title artB.title := by decide
  show "title:" ++ toString (md5_digest12 (normalize_title artA.title))
      = "title:" ++ toString (md5_digest12 (normalize_title artB.title))
  rw [h]

/-- C1 (amended).  Within one aggregated search_all call no two returned
    records share the code's identifier (lowercased untrimmed DOI, or
    normalised-title digest) — in particular no two records of one search_all
    result carry DOIs equal after lowercasing.  The invariant does not extend
    to the full hybrid request result. -/
theorem search_all_pairwise_distinct_identifiers
    (cfgs : List ApiConfig) (resultsOf : String → List ArticleCreate)
    (query : String) (limit : Nat) :
    (search_all cfgs resultsOf query limit).Pairwise
      (fun a b => create_identifier a ≠ create_identifier b) := by
  have hcol := collect_sources_pairwise limit resultsOf
    (rank_apis (categorize_query query) cfgs) [] []
    List.Pairwise.nil (by intro a ha; cases ha)
  have hfil : (final_quality_filter (collect_sources limit resultsOf
      (rank_apis (categorize_query query) cfgs) [] [])).Pairwise
      (fun a b => create_identifier a ≠ create_identifier b) :=
    List.Pairwise.filter _ hcol
  have hsort : (sortDescBy calculate_quality_score
      (final_quality_filter (collect_sources limit resultsOf
        (rank_apis (categorize_query query) cfgs) [] []))).Pairwise
      (fun a b => create_identifier a ≠ create_identifier b) :=
    hfil.perm (sortDescBy_perm calculate_quality_score _).symm (fun h => Ne.symm h)
  exact List.Pairwise.sublist (List.take_sublist _ _) hsort

/-- C5 (counterexample).  A concrete run (target 5, every upstream attempt
    returning one article): after a single attempt that returned fewer than
    one third of its fetch count the loop stops — only one aggregated call is
    made although the target is unmet, the attempt budget is not exhausted
    and the collected count is far below 1.5 times the target.  A single
    short attempt therefore terminates the fetch loop, contrary to the
    claimed two-consecutive-attempts condition. -/
theorem fetch_single_short_attempt_cex :
    (search_articles 5 false false [] [] c5_extFn).apiCalls = 1
    ∧ (search_articles 5 false false [] [] c5_extFn).finalArts.length = 1
    ∧ (search_articles 5 false false [] [] c5_extFn).finalArts.length * 2 < 5 * 3
    ∧ (search_articles 5 false false [] [] c5_extFn).apiCalls < max_fetch_attempts := by
  refine ⟨by decide, by decide, by decide, by decide⟩

/-- C5 (amended).  The fetch loop stops after any single attempt whose result
    is shorter than a third (integer division) of that attempt's fetch count
    — exactly one more aggregated call is made; and inside one search_all
    call, once the collected count reaches 1.5 times the limit the remaining
    ranked sources are never consulted (the result is independent of them). -/
theorem fetch_stop_single_short_attempt :
    (∀ (target : Nat) (reqAbs : Bool) (extFn : Nat → Nat → List ArticleCreate)
        (fuel attempt : Nat) (st : SState),
      st.collected.length < target → attempt < max_fetch_attempts →
      (extFn (fetch_count target reqAbs st) st.processedCount).length
          < fetch_count target reqAbs st / 3 →
      (fetchLoop target reqAbs extFn (fuel + 1) attempt st).apiCalls = st.apiCalls + 1)
    ∧ (∀ (limit : Nat) (resultsOf : String → List ArticleCreate) (cfg : ApiConfig)
        (sc : Int) (rest1 rest2 : List (ApiConfig × Int)) (seen : List String)
        (acc : List ArticleCreate),
      limit * 3 ≤ (acc ++ (dedupBatch seen (resultsOf cfg.name)).1).length * 2 →
      collect_sources limit resultsOf ((cfg, sc) :: rest1) seen acc
        = collect_sources limit resultsOf ((cfg, sc) :: rest2) seen acc) := by
  constructor
  · intro target reqAbs extFn fuel attempt st h1 h2 h3
    simp only [fetchLoop]
    rw [if_pos (show _ ∧ _ from ⟨h1, h2⟩)]
    by_cases he : (extFn (fetch_count target reqAbs st) st.processedCount).isEmpty
    · rw [if_pos he]
    · rw [if_neg he, if_pos h3, process_batch_apiCalls]
  · intro limit resultsOf cfg sc rest1 rest2 seen acc h
    simp only [collect_sources]
    rw [if_pos h, if_pos h]

/-- Witness for fetch_stop_single_short_attempt: the C5 scenario's first
    attempt is short, and a saturated accumulator makes the source loop
    ignore whatever ranked sources would follow. -/
theorem fetch_stop_single_short_attempt_witness :
    (fetchLoop 5 false c5_extFn 3 0 emptyState).apiCalls = emptyState.apiCalls + 1
    ∧ collect_sources 1 c5_results [(semantic_scholar_cfg, 8), (semantic_scholar_cfg, 9)]
        [] [artGood, artGood]
      = collect_sources 1 c5_results [(semantic_scholar_cfg, 8)] [] [artGood, artGood] :=
  ⟨fetch_stop_single_short_attempt.1 5 false c5_extFn 2 0 emptyState
      (by decide) (by decide) (by decide),
    fetch_stop_single_short_attempt.2 1 c5_results semantic_scholar_cfg 8
      [(semantic_scholar_cfg, 9)] [] [] [artGood, artGood] (by decide)⟩
